import Mathlib

/-!
Verification of the SPNEGO negotiation-token codec
(repository `vphpersson/spnego`: `spnego/negotiation_tokens/base.py`,
`spnego/negotiation_tokens/neg_token_init.py`,
`spnego/negotiation_tokens/neg_token_resp.py`,
`spnego/token_attributes.py`, `spnego/exceptions.py`).

Modelling conventions:

* Bytes are `List Nat` (each entry a byte value); every tag used by the
  repository is a single byte, so a TLV tag is one `Nat`.
* The external `asn1` package (tag/length/value triplets and the ASN.1
  universal types `Sequence`, `ObjectIdentifier`, `BitString`,
  `OctetString`, `Enumerated`) is modelled per standard DER: a triplet
  serializes to tag byte, definite-length bytes, then the value; a
  `Sequence` instance carries the universal SEQUENCE tag `0x30` and its
  value is the concatenation of its already-serialized elements; an
  `ObjectIdentifier` carries tag `0x06` with the usual base-128 component
  packing; `BitString` (tag `0x03`), `OctetString` (tag `0x04`) and
  `Enumerated` (tag `0x0A`) carry their data directly.  Failures inside
  the adapter are collapsed into a single `asn1Error` value, and Python
  builtin exceptions that the repository lets escape (`SyntaxError`,
  `KeyError`, `TypeError`, `ValueError`, `IndexError`) are modelled as
  explicit error values so that the distinction between the repository's
  typed `MalformedGSSToken` family and untyped escapes stays observable.
* neg_token_init.py line 74 reads `required_tags=` with no expression —
  a Python SyntaxError — so that module can never be imported: the
  `NegTokenInit` class and its nested attribute classes never exist, no
  Initiation token can be constructed or encoded, the
  `@register_spnego_class` decoration never executes (the registry dict
  stays empty), and `SPNEGONegotiationToken._from_tlv_triplet`, whose
  first statement imports that module (base.py lines 82-83), raises
  `SyntaxError` on every call before any of its own logic runs.  The
  contents of neg_token_init.py are therefore not modelled as runnable
  code.
* `NegTokenResp` does not subclass `SPNEGONegotiationToken`; its decode
  path lives in `ASN1AttributeParserMixin`
  (`spnego/negotiation_tokens/__init__.py`), a repository file missing
  from the provided sources and modelled from the spec where marked.
-/

namespace Spnego

/-- A tag/length/value triplet (external `asn1.tag_length_value_triplet.
TagLengthValueTriplet`); the tag is a single byte, the value a byte list. -/
structure TLV where
  tag : Nat
  value : List Nat
deriving DecidableEq, Repr

/-- Minimal big-endian base-256 digits, fuelled for structural recursion
(the fuel never runs out when it starts at the number itself, since the
quotient shrinks strictly). -/
def beBytesAux : Nat → Nat → List Nat
  | 0, n => [n]
  | fuel + 1, n =>
    if n < 256 then [n]
    else beBytesAux fuel (n / 256) ++ [n % 256]

/-- Minimal big-endian base-256 digits of a natural number. -/
def beBytes (n : Nat) : List Nat := beBytesAux n n

/-- Big-endian value of a byte list. -/
def beVal (bs : List Nat) : Nat :=
  bs.foldl (fun a b => a * 256 + b) 0

/-- DER definite-length encoding of a length. -/
def lenBytes (n : Nat) : List Nat :=
  if n < 128 then [n]
  else (128 + (beBytes n).length) :: beBytes n

/-- Serialize a triplet: tag byte, length bytes, value bytes
(external `bytes(TagLengthValueTriplet)`). -/
def tlvBytes (t : TLV) : List Nat :=
  t.tag :: (lenBytes t.value.length ++ t.value)

/-- Parse a DER definite length from the front of a byte list, returning the
length and the remaining bytes. -/
def parseLen : List Nat → Option (Nat × List Nat)
  | [] => none
  | b :: rest =>
    if b < 128 then some (b, rest)
    else
      let k := b - 128
      if k = 0 then none
      else if rest.length < k then none
      else some (beVal (rest.take k), rest.drop k)

/-- Parse one triplet from the front of a byte list
(external `TagLengthValueTriplet.from_bytes`), returning it and the rest. -/
def parseTlvStep : List Nat → Option (TLV × List Nat)
  | [] => none
  | t :: rest =>
    match parseLen rest with
    | none => none
    | some (len, rest2) =>
      if rest2.length < len then none
      else some (⟨t, rest2.take len⟩, rest2.drop len)

/-- Parse a maximal run of consecutive triplets, fuelled by the byte count
(each triplet consumes at least one byte). -/
def parseTlvRun : Nat → List Nat → Option (List TLV)
  | _, [] => some []
  | 0, _ => none
  | fuel + 1, bs =>
    match parseTlvStep bs with
    | none => none
    | some (t, rest) =>
      match parseTlvRun fuel rest with
      | none => none
      | some ts => some (t :: ts)

/-- Split a byte list into the list of consecutive triplets it concatenates
(external `ASN1Sequence` element splitting). -/
def parseTlvList (bs : List Nat) : Option (List TLV) :=
  parseTlvRun bs.length bs

/-- Parse a byte list as exactly one triplet with nothing left over. -/
def parseTlvExact (bs : List Nat) : Option TLV :=
  match parseTlvStep bs with
  | some (t, []) => some t
  | _ => none

/-- Decode the base-128-packed components after an OID's first byte; the
accumulator holds the partial component, the flag records whether a
continuation byte is pending. -/
def oidTail : List Nat → Nat → Bool → Option (List Nat)
  | [], _, pending => if pending then none else some []
  | b :: bs, acc, _ =>
    let acc2 := acc * 128 + b % 128
    if b < 128 then (oidTail bs 0 false).map (fun cs => acc2 :: cs)
    else oidTail bs acc2 true

/-- Decode OID content bytes to the dotted component list (external
`asn1.oid.OID` decoding; the first byte packs the first two components as
40 * a + b, which agrees with the standard rule for every OID used here). -/
def decodeOid : List Nat → Option (List Nat)
  | [] => none
  | b :: bs => (oidTail bs 0 false).map (fun cs => b / 40 :: b % 40 :: cs)

/-- Base-128 digits of one OID component, fuelled for structural
recursion. -/
def base128DigitsAux : Nat → Nat → List Nat
  | 0, n => [n]
  | fuel + 1, n =>
    if n < 128 then [n]
    else base128DigitsAux fuel (n / 128) ++ [n % 128]

/-- Base-128 digits of one OID component. -/
def base128Digits (n : Nat) : List Nat := base128DigitsAux n n

/-- Base-128 packing of one OID component: continuation bit on every digit
but the last. -/
def base128Pack (n : Nat) : List Nat :=
  match (base128Digits n).reverse with
  | [] => []
  | last :: revRest => (revRest.reverse.map (fun d => d + 128)) ++ [last]

/-- Encode a dotted OID component list to content bytes. -/
def encodeOidBytes : List Nat → List Nat
  | a :: b :: rest => (40 * a + b) :: (rest.map base128Pack).flatten
  | _ => []

/-- ASN.1 SEQUENCE triplet of already-serialized elements (external
`asn1.universal_types.Sequence.tlv_triplet`): universal tag 0x30, value the
concatenation of the elements' bytes. -/
def seqTlv (elems : List TLV) : TLV :=
  ⟨0x30, (elems.map tlvBytes).flatten⟩

/-- OBJECT IDENTIFIER triplet (external `ObjectIdentifier.tlv_triplet`). -/
def oidTlv (oid : List Nat) : TLV :=
  ⟨0x06, encodeOidBytes oid⟩

/-- OCTET STRING triplet (external `OctetString.tlv_triplet`). -/
def octetStringTlv (data : List Nat) : TLV :=
  ⟨0x04, data⟩

/-- BIT STRING triplet (external `BitString.tlv_triplet`); the `data` field
is carried as the value, symmetrically with `BitString.from_tlv_triplet`. -/
def bitStringTlv (data : List Nat) : TLV :=
  ⟨0x03, data⟩

/-- Minimal big-endian bytes of a non-negative integer, with zero as one
zero byte (external `Enumerated` integer content). -/
def encodeIntBytes (n : Nat) : List Nat :=
  if n = 0 then [0] else beBytes n

/-- ENUMERATED triplet (external `Enumerated.tlv_triplet`). -/
def enumeratedTlv (n : Nat) : TLV :=
  ⟨0x0A, encodeIntBytes n⟩

/-- SPNEGO's mechanism OID `1.3.6.1.5.5.2`
(`SPNEGONegotiationToken.mechanism_oid`, base.py line 49). -/
def spnegoOid : List Nat := [1, 3, 6, 1, 5, 5, 2]

/-- The errors the decode paths can produce.  The first eight constructors
are the `MalformedGSSToken` subclasses of `spnego/exceptions.py` (a live,
importable module); `attributeDecodeError` is the spec's wrapped
value-decode failure (spec section 4.2 step d, carrying the offending tag
and the underlying cause), raised only by the spec-modelled mixin walk;
the remainder model failures nothing in the repository wraps: Python
builtin exceptions escaping (`SyntaxError` from importing the
syntactically invalid neg_token_init module, `KeyError` from a dict
subscript, `TypeError` from keyword construction, `ValueError` from
`IntEnum` range checks, `IndexError` from `elements[0]`) and
adapter-level `asn1` failures. -/
inductive SpnegoError where
  | invalidGSSTokenTag : Nat → SpnegoError
  | invalidNumberOfGSSTokenElements : Nat → SpnegoError
  | invalidAttributeTag : Nat → SpnegoError
  | multipleAttribute : Nat → SpnegoError
  | outOfOrderNegotiationTokenElement : Nat → SpnegoError
  | missingRequiredAttributes : List Nat → List Nat → SpnegoError
  | negotiationTokenTagMismatch : Nat → SpnegoError
  | negotiationTokenOidMismatch : List Nat → SpnegoError
  | attributeDecodeError : Nat → SpnegoError → SpnegoError
  | syntaxError : SpnegoError
  | keyError : Nat → SpnegoError
  | typeError : SpnegoError
  | valueError : SpnegoError
  | indexError : SpnegoError
  | asn1Error : SpnegoError
deriving DecidableEq, Repr

/-- Whether an error value corresponds to a member of the typed
`MalformedGSSToken` exception family — the subclasses of
`spnego/exceptions.py` together with the spec's `AttributeDecodeError`;
the modelled Python builtins and raw adapter failures are outside it. -/
def SpnegoError.isMalformedGSSToken : SpnegoError → Bool
  | .syntaxError => false
  | .keyError _ => false
  | .typeError => false
  | .valueError => false
  | .indexError => false
  | .asn1Error => false
  | _ => true

/-- Decoded attribute values (the `parsed_value` results of
`spnego/token_attributes.py`): a mech-type OID list, a single
`NegTokenInitReqFlag` value, raw bytes, a single OID, or a single
`NegTokenRespNegState` value. -/
inductive FieldValue where
  | oidList : List (List Nat) → FieldValue
  | flag : Nat → FieldValue
  | bytes : List Nat → FieldValue
  | oid : List Nat → FieldValue
  | negState : Nat → FieldValue
deriving DecidableEq, Repr

/-- First element of a `TokenAttribute` sequence (`self.elements[0]` in
`spnego/token_attributes.py`); an empty sequence raises `IndexError`. -/
def headTlv : List TLV → Except SpnegoError TLV
  | [] => .error .indexError
  | t :: _ => .ok t

/-- Lift an adapter result, turning `none` into the given error. -/
def liftO {α : Type} (e : SpnegoError) : Option α → Except SpnegoError α
  | none => .error e
  | some a => .ok a

/-- Elements of an ASN.1 SEQUENCE triplet (external
`Sequence.from_tlv_triplet`): the tag must be the universal SEQUENCE tag,
and the value splits into consecutive triplets. -/
def sequenceElems (t : TLV) : Except SpnegoError (List TLV) :=
  if t.tag = 0x30 then liftO .asn1Error (parseTlvList t.value)
  else .error .asn1Error

/-- Inner elements of a `TokenAttribute` triplet
(`TokenAttribute.from_tlv_triplet` splits the value, being an
`ASN1Sequence` with the context tag overriding the SEQUENCE tag). -/
def attributeElems (e : TLV) : Except SpnegoError (List TLV) :=
  liftO .asn1Error (parseTlvList e.value)

/-- Parsed value of a `ReqFlags` attribute element
(`ReqFlags.parsed_value`, token_attributes.py lines 57-66): the BIT STRING
data read as a big-endian integer must be a `NegTokenInitReqFlag` value,
that is one of 0..6; anything else raises `ValueError` from the `IntEnum`
constructor. -/
def reqFlagsValue (e : TLV) : Except SpnegoError FieldValue :=
  match attributeElems e with
  | .error err => .error err
  | .ok elems =>
    match headTlv elems with
    | .error err => .error err
    | .ok first =>
      if first.tag = 0x03 then
        if beVal first.value ≤ 6 then .ok (.flag (beVal first.value))
        else .error .valueError
      else .error .asn1Error

/-- Parsed value of an OCTET STRING carrying attribute (`MechToken`,
`MechListMic`, `ResponseToken`). -/
def octetValue (e : TLV) : Except SpnegoError FieldValue :=
  match attributeElems e with
  | .error err => .error err
  | .ok elems =>
    match headTlv elems with
    | .error err => .error err
    | .ok first =>
      if first.tag = 0x04 then .ok (.bytes first.value)
      else .error .asn1Error

/-- Parsed value of a `SupportedMech` attribute element. -/
def supportedMechValue (e : TLV) : Except SpnegoError FieldValue :=
  match attributeElems e with
  | .error err => .error err
  | .ok elems =>
    match headTlv elems with
    | .error err => .error err
    | .ok first =>
      if first.tag = 0x06 then
        match decodeOid first.value with
        | none => .error .asn1Error
        | some o => .ok (.oid o)
      else .error .asn1Error

/-- Parsed value of a `NegState` attribute element
(`NegState.parsed_value`, token_attributes.py lines 97-101): the
ENUMERATED integer must be a `NegTokenRespNegState` value, that is one of
0..3; anything else raises `ValueError` from the `IntEnum` constructor. -/
def negStateValue (e : TLV) : Except SpnegoError FieldValue :=
  match attributeElems e with
  | .error err => .error err
  | .ok elems =>
    match headTlv elems with
    | .error err => .error err
    | .ok first =>
      if first.tag = 0x0A then
        if beVal first.value ≤ 3 then .ok (.negState (beVal first.value))
        else .error .valueError
      else .error .asn1Error

/-- The dataclass field names used as keyword keys when a token is built
from parsed attributes.  Only `NegTokenResp`'s nested attribute classes
define a string `property_name` (neg_token_resp.py lines 24-38);
`NegTokenInit`'s nested classes define none, inheriting the
`TokenAttribute.property_name` property object instead. -/
inductive PropName where
  | negStateP
  | supportedMechP
  | responseTokenP
  | mechListMicP
deriving DecidableEq, BEq, Repr

/-- One `TokenAttribute` subclass as the attribute walk sees it: its
context tag, its `required` class flag, its `property_name` (when the
class defines a string one), and its `parsed_value` computation. -/
structure AttrClass where
  tag : Nat
  required : Bool
  propertyName : Option PropName
  decodeValue : TLV → Except SpnegoError FieldValue

/-- The nested `TokenAttribute` classes of `NegTokenResp`
(neg_token_resp.py lines 24-38): neg-state (0xA0), supported-mech (0xA1),
response-token (0xA2), mech-list MIC (0xA3), all optional, each with a
string `property_name`. -/
def respAttrClasses : List AttrClass :=
  [⟨0xA0, false, some .negStateP, negStateValue⟩,
   ⟨0xA1, false, some .supportedMechP, supportedMechValue⟩,
   ⟨0xA2, false, some .responseTokenP, octetValue⟩,
   ⟨0xA3, false, some .mechListMicP, octetValue⟩]

/-- State of the attribute walk of
`SPNEGONegotiationToken._parse_attribute_elements` (base.py lines
136-154): the previously accepted tag and the tag-keyed parsed values in
insertion order (Python dict order). -/
structure WalkState where
  previousTag : Option Nat
  parsed : List (Nat × FieldValue)

/-- Whether the current tag violates the strictly-ascending order rule
(`previous_tag is not None and element.tag <= previous_tag`). -/
def orderViolation : Option Nat → Nat → Prop
  | none, _ => False
  | some p, t => t ≤ p

instance : (o : Option Nat) → (t : Nat) → Decidable (orderViolation o t)
  | none, _ => isFalse (fun h => h)
  | some p, t => Nat.decLe t p

/-- The per-element walk of base.py lines 138-154: reject tags outside the
schema set (`InvalidAttributeTagError`), tags already decoded
(`MultipleAttributeError`), and tags not strictly greater than the
previous one (`OutOfOrderNegotiationTokenElementError`); otherwise decode
the value and record it.  This transcribes the in-source walk verbatim;
the spec-modelled mixin walk below shares its checks (a)-(c), and the
live Response decode agrees with it on every element accepted or rejected
by those checks. -/
def walkElements (attrs : List AttrClass) :
    WalkState → List TLV → Except SpnegoError (List (Nat × FieldValue))
  | st, [] => .ok st.parsed
  | st, e :: rest =>
    match attrs.find? (fun a => a.tag == e.tag) with
    | none => .error (.invalidAttributeTag e.tag)
    | some a =>
      if e.tag ∈ st.parsed.map Prod.fst then
        .error (.multipleAttribute e.tag)
      else if orderViolation st.previousTag e.tag then
        .error (.outOfOrderNegotiationTokenElement e.tag)
      else
        match a.decodeValue e with
        | .error err => .error err
        | .ok v => walkElements attrs ⟨some e.tag, st.parsed ++ [(e.tag, v)]⟩ rest

/-- Tags of the schemas marked required (base.py lines 130-134, spec
section 4.2 step 3). -/
def requiredTags (attrs : List AttrClass) : List Nat :=
  (attrs.filter (fun a => a.required)).map (fun a => a.tag)

/-- Modelled from the spec: the per-element walk of
`ASN1AttributeParserMixin._parse_attribute_elements`
(`spnego/negotiation_tokens/__init__.py`, a repository file missing from
the provided sources), the only attribute walk reachable at runtime —
`NegTokenResp._from_tlv_triplet` delegates to it.  Per spec section 4.2
it performs the tag-validity, uniqueness and strict-ordering checks
(a)-(c) exactly as the in-source base.py walk above, and — step (d) — a
value-decode failure is propagated as `AttributeDecodeError` carrying
the offending tag and the cause. -/
def mixinWalkElements (attrs : List AttrClass) :
    WalkState → List TLV → Except SpnegoError (List (Nat × FieldValue))
  | st, [] => .ok st.parsed
  | st, e :: rest =>
    match attrs.find? (fun a => a.tag == e.tag) with
    | none => .error (.invalidAttributeTag e.tag)
    | some a =>
      if e.tag ∈ st.parsed.map Prod.fst then
        .error (.multipleAttribute e.tag)
      else if orderViolation st.previousTag e.tag then
        .error (.outOfOrderNegotiationTokenElement e.tag)
      else
        match a.decodeValue e with
        | .error err => .error (.attributeDecodeError e.tag err)
        | .ok v => mixinWalkElements attrs ⟨some e.tag, st.parsed ++ [(e.tag, v)]⟩ rest

/-- Modelled from the spec: the attribute-set decode of
`ASN1AttributeParserMixin` (spec section 4.2 steps 2-4): walk the
elements, fail with `MissingRequiredAttributesError` — carrying the
observed tags and the required tags — when a schema marked required
produced no field, else build the token with the variant's
constructor. -/
def mixinParseAttributeElements {α : Type} (attrs : List AttrClass)
    (construct : List (Nat × FieldValue) → Except SpnegoError α)
    (elements : List TLV) : Except SpnegoError α :=
  match mixinWalkElements attrs ⟨none, []⟩ elements with
  | .error err => .error err
  | .ok parsed =>
    if ∃ t ∈ requiredTags attrs, t ∉ parsed.map Prod.fst then
      .error (.missingRequiredAttributes (parsed.map Prod.fst) (requiredTags attrs))
    else construct parsed

/-- Keyword building for the construct step (the
`cls(**{... .property_name: parsed_value ...})` pattern of the written
codebase, with `NegTokenResp`'s string property names from
neg_token_resp.py lines 24-38): a class without a string `property_name`
would contribute a non-string key, making the call raise `TypeError`. -/
def buildKwargs (attrs : List AttrClass) :
    List (Nat × FieldValue) → Except SpnegoError (List (PropName × FieldValue))
  | [] => .ok []
  | (t, v) :: rest =>
    match attrs.find? (fun a => a.tag == t) with
    | none => .error .typeError
    | some a =>
      match a.propertyName with
      | none => .error .typeError
      | some n =>
        match buildKwargs attrs rest with
        | .error e => .error e
        | .ok kw => .ok ((n, v) :: kw)

/-- A decoded `NegTokenInit` value as the dataclass is written
(neg_token_init.py lines 17-21).  The class never comes into being at
runtime — its module's SyntaxError prevents import — so the program can
neither construct nor return such a value; the type is kept as the data
model of the written declaration. -/
structure NegTokenInit where
  mechTypes : List (List Nat)
  reqFlags : Option Nat
  mechToken : Option (List Nat)
  mechListMic : Option (List Nat)
deriving DecidableEq, Repr

/-- A decoded `NegTokenResp` value (neg_token_resp.py lines 15-19). -/
structure NegTokenResp where
  negState : Option Nat
  supportedMech : Option (List Nat)
  responseToken : Option (List Nat)
  mechListMic : Option (List Nat)
deriving DecidableEq, Repr

/-- A negotiation token of either variant. -/
inductive SPNEGOToken where
  | init : NegTokenInit → SPNEGOToken
  | resp : NegTokenResp → SPNEGOToken
deriving DecidableEq, Repr

/-- Keyword lookup in built kwargs. -/
def lookupKw (kw : List (PropName × FieldValue)) (k : PropName) : Option FieldValue :=
  (kw.find? (fun p => p.1 == k)).map Prod.snd

/-- Project a neg-state keyword value. -/
def fvState : Option FieldValue → Option Nat
  | some (.negState s) => some s
  | _ => none

/-- Project an OID keyword value. -/
def fvOid : Option FieldValue → Option (List Nat)
  | some (.oid o) => some o
  | _ => none

/-- Project a byte-string keyword value. -/
def fvBytes : Option FieldValue → Option (List Nat)
  | some (.bytes b) => some b
  | _ => none

/-- Construction step for `NegTokenResp`: the keyword keys are the string
`property_name`s of its nested classes, and every field defaults to
absent. -/
def constructResp (parsed : List (Nat × FieldValue)) : Except SpnegoError SPNEGOToken :=
  match buildKwargs respAttrClasses parsed with
  | .error e => .error e
  | .ok kw =>
    .ok (.resp ⟨fvState (lookupKw kw .negStateP), fvOid (lookupKw kw .supportedMechP),
       fvBytes (lookupKw kw .responseTokenP), fvBytes (lookupKw kw .mechListMicP)⟩)

/-- The negotiation-token classes, as entries of the
`_spnego_tag_to_class` registry (base.py line 51). -/
inductive TokenClass where
  | negTokenInitC
  | negTokenRespC
deriving DecidableEq, Repr

/-- Registry lookup (`cls._spnego_tag_to_class[tag]` reading side). -/
def registryLookup (m : List (Nat × TokenClass)) (k : Nat) : Option TokenClass :=
  (m.find? (fun p => p.1 == k)).map Prod.snd

/-- `register_spnego_class` (base.py lines 167-169):
`cls._spnego_tag_to_class[cls.spnego_tag] = cls`, a plain dict assignment —
replace the entry in place when the key exists, append otherwise. -/
def registerSpnegoClass : List (Nat × TokenClass) → Nat → TokenClass → List (Nat × TokenClass)
  | [], tag, c => [(tag, c)]
  | (k, v) :: rest, tag, c =>
    if k = tag then (tag, c) :: rest
    else (k, v) :: registerSpnegoClass rest tag c

/-- The `_spnego_tag_to_class` mapping at runtime: the sole use of
`register_spnego_class` is the decorator on `NegTokenInit`
(neg_token_init.py line 16), inside the module whose SyntaxError prevents
import, so the decorator never executes and the dict stays empty
forever. -/
def spnegoRegistry : List (Nat × TokenClass) := []

/-- `SPNEGONegotiationToken._from_tlv_triplet` (base.py lines 61-107).
The method's first statement (line 82) is `from
spnego.negotiation_tokens.neg_token_init import NegTokenInit`;
neg_token_init.py line 74 reads `required_tags=` with no expression — a
SyntaxError — so every call raises `SyntaxError` at that import, before
the GSS shape check, the mechanism-OID comparison, the inner-sequence
parsing and the registry lookup of lines 85-107 can execute.  The method
therefore never returns a token and never raises any `MalformedGSSToken`
subclass. -/
def spnegoTokenFromTlvTriplet (_t : TLV) : Except SpnegoError SPNEGOToken :=
  .error .syntaxError

/-- The generic top-level decode entry point: parse the bytes as one
triplet (external `ASN1Type.from_bytes`) and dispatch through
`SPNEGONegotiationToken._from_tlv_triplet`, which raises `SyntaxError`
on every call. -/
def decodeNegotiationToken (data : List Nat) : Except SpnegoError SPNEGOToken :=
  match parseTlvExact data with
  | none => .error .asn1Error
  | some t => spnegoTokenFromTlvTriplet t

/-- Modelled from the spec: the `_parse_attribute_elements` this entry
delegates to comes from `ASN1AttributeParserMixin` in
`spnego/negotiation_tokens/__init__.py`, which is missing from the
provided sources; it is modelled as the attribute-set decode of spec
section 4.2 (`mixinParseAttributeElements` above).  The rest is
`NegTokenResp._from_tlv_triplet` (neg_token_resp.py lines 40-44): parse
the triplet's value as a SEQUENCE and delegate its elements to the
attribute walk with `NegTokenResp`'s schema classes. -/
def negTokenRespFromTlvTriplet (t : TLV) : Except SpnegoError SPNEGOToken :=
  match parseTlvExact t.value with
  | none => .error .asn1Error
  | some seqT =>
    match sequenceElems seqT with
    | .error e => .error e
    | .ok elems => mixinParseAttributeElements respAttrClasses constructResp elems

/-- Optional field serialization helper: absent fields are omitted. -/
def optionElem {α : Type} : Option α → (α → TLV) → List TLV
  | none, _ => []
  | some a, f => [f a]

/-- The attribute elements of `NegTokenResp.tlv_triplet`
(neg_token_resp.py lines 46-77), each optional. -/
def negTokenRespElements (v : NegTokenResp) : List TLV :=
  optionElem v.negState (fun s => ⟨0xA0, tlvBytes (enumeratedTlv s)⟩)
    ++ optionElem v.supportedMech (fun o => ⟨0xA1, tlvBytes (oidTlv o)⟩)
    ++ optionElem v.responseToken (fun b => ⟨0xA2, tlvBytes (octetStringTlv b)⟩)
    ++ optionElem v.mechListMic (fun b => ⟨0xA3, tlvBytes (octetStringTlv b)⟩)

/-- `NegTokenResp.tlv_triplet` (neg_token_resp.py lines 78-81): the bare
inner triplet — its `spnego_tag` 0xA1 over the serialized element
SEQUENCE — with no GSS envelope and no mechanism OID. -/
def negTokenRespTlv (v : NegTokenResp) : TLV :=
  ⟨0xA1, tlvBytes (seqTlv (negTokenRespElements v))⟩

/-- Top-level encode of a `NegTokenResp` to bytes. -/
def encodeNegTokenResp (v : NegTokenResp) : List Nat :=
  tlvBytes (negTokenRespTlv v)

/-! Concrete inputs used by the claim theorems. -/

/-- A response token with only the accept-complete negotiation state. -/
def exResp : NegTokenResp := ⟨some 0, none, none, none⟩

/-- A well-formed envelope whose inner triplet carries the unregistered
tag 0xA5 over an empty nested SEQUENCE. -/
def exA5Envelope : TLV :=
  ⟨0x30, tlvBytes (oidTlv spnegoOid) ++ tlvBytes ⟨0xA5, tlvBytes (seqTlv [])⟩⟩

/-- A well-formed envelope whose mechanism OID is 1.2.3.4. -/
def exMismatchEnvelope : TLV :=
  ⟨0x30, tlvBytes (oidTlv [1, 2, 3, 4]) ++ tlvBytes ⟨0xA0, tlvBytes (seqTlv [])⟩⟩

/-- A supported-mech response element (tag 0xA1) carrying OID 1.2.3.4. -/
def exSupportedMechElem : TLV := ⟨0xA1, tlvBytes (oidTlv [1, 2, 3, 4])⟩

/-- A neg-state response element (tag 0xA0) carrying accept-complete. -/
def exNegStateElem : TLV := ⟨0xA0, tlvBytes (enumeratedTlv 0)⟩

/-- A response triplet whose two inner elements are swapped: tag 0xA1
before tag 0xA0. -/
def exSwappedRespTlv : TLV :=
  ⟨0xA1, tlvBytes (seqTlv [exSupportedMechElem, exNegStateElem])⟩

/-- A 0xA1-tagged element over a BIT STRING with data byte 0 — the shape
of the spec's Initiation flags element. -/
def exReqFlagsElem : TLV := ⟨0xA1, tlvBytes (bitStringTlv [0])⟩

/-- The spec's required-field scenario as raw bytes: a well-formed
envelope whose inner 0xA0 body holds only a 0xA1 flags element and no
0xA0 mech-type list. -/
def exInitFlagsOnlyBytes : List Nat :=
  tlvBytes ⟨0x30, tlvBytes (oidTlv spnegoOid)
    ++ tlvBytes ⟨0xA0, tlvBytes (seqTlv [exReqFlagsElem])⟩⟩

/-- A neg-state response element carrying the out-of-range enumerated
value 4. -/
def exBadNegStateElem : TLV := ⟨0xA0, tlvBytes (enumeratedTlv 4)⟩

/-- A response triplet whose single inner element is the out-of-range
neg-state element. -/
def exBadNegStateTlv : TLV := ⟨0xA1, tlvBytes (seqTlv [exBadNegStateElem])⟩

/-- A response element sequence tagged 0xA1, 0xA0, 0xA0: the 0xA0
neg-state tag occurs twice, behind an ordering violation. -/
def exDupRespElems : List TLV :=
  [exSupportedMechElem, exNegStateElem, exNegStateElem]

/-- A response triplet over the duplicated, out-of-order element
sequence. -/
def exDupRespTlv : TLV := ⟨0xA1, tlvBytes (seqTlv exDupRespElems)⟩

/-- A response triplet whose body holds the same 0xA0 neg-state element
twice in a row. -/
def exTwoNegStateTlv : TLV := ⟨0xA1, tlvBytes (seqTlv [exNegStateElem, exNegStateElem])⟩

/-- How often a tag occurs in an element sequence. -/
def countTag (els : List TLV) (t : Nat) : Nat :=
  (els.filter (fun e => e.tag == t)).length

/-- Modelled from the spec: the req-flags byte the specification
describes — a single-byte bit string over the seven named
`NegTokenInitReqFlag` bit positions laid out most-significant-bit-first,
so position 0 (delegation) is bit value 128 and position 6 (integrity)
is bit value 2.  Stated only for comparison against the repository's
decode, which reads a single enumeration value instead. -/
def reqFlagsSpecBits (flags : List Nat) : Nat :=
  flags.foldl (fun a f => a ||| (2 ^ (7 - f))) 0

/-! Claim theorems. -/

/-- C1: the claim states that for every constructible Initiation or
Response value, encoding with the top-level encode and decoding the bytes
with the generic top-level decode returns the original value.  The
program satisfies this for no value at all: no Initiation value is
constructible (neg_token_init.py's SyntaxError keeps the class from ever
existing), and decoding the bytes of any encodable Response raises the
untyped SyntaxError, because the generic decode's first step imports the
syntactically invalid module (base.py line 82). -/
theorem c1_round_trip_broken :
    decodeNegotiationToken (encodeNegTokenResp exResp) = .error .syntaxError ∧
    (SpnegoError.syntaxError).isMalformedGSSToken = false :=
  ⟨rfl, rfl⟩

/-- C2: the claim states that the top-level encode always produces
`TLV(0x60, encode_oid(1.3.6.1.5.5.2) ++ TLV(inner_tag, inner))`.  No
Initiation value can ever be encoded (the class never exists; the written
envelope builder would moreover carry the `ASN1Sequence`'s own tag and
the uncalled bound method of base.py line 43, not the declared 0x60),
and the live Response encode produces the bare `TLV(0xA1, inner)` — no
0x60 tag, no mechanism OID, no envelope — shown for every Response value
and on the concrete accept-complete response. -/
theorem c2_outer_shape_broken :
    (∀ r : NegTokenResp, encodeNegTokenResp r
      = tlvBytes ⟨0xA1, tlvBytes (seqTlv (negTokenRespElements r))⟩) ∧
    encodeNegTokenResp exResp = [0xA1, 7, 0x30, 5, 0xA0, 3, 0x0A, 1, 0] ∧
    (0xA1 : Nat) ≠ 0x60 :=
  ⟨fun _ => rfl, rfl, by decide⟩

/-- C3 counterexample: the claim states that a well-formed envelope whose
inner tag 0xA5 is registered for no variant fails with an
`UnknownNegotiationTokenTag` error.  The decode instead raises the
untyped SyntaxError at base.py line 82, before the registry — which
stays empty — could be consulted, and no `UnknownNegotiationTokenTag`
class exists in spnego/exceptions.py to be raised. -/
theorem c3_unknown_tag_counterexample :
    spnegoTokenFromTlvTriplet exA5Envelope = .error .syntaxError ∧
    (SpnegoError.syntaxError).isMalformedGSSToken = false ∧
    registryLookup spnegoRegistry 0xA5 = none :=
  ⟨rfl, rfl, rfl⟩

/-- C3 amended: for every input whose bytes parse as a triplet — the
0xA5 envelope included — the generic registry-dispatching decode raises
the untyped SyntaxError of base.py line 82's import of the syntactically
invalid neg_token_init module; the registry stays empty, and no typed
`UnknownNegotiationTokenTag` error exists. -/
theorem c3_unknown_tag_amended (data : List Nat) (t : TLV)
    (h : parseTlvExact data = some t) :
    decodeNegotiationToken data = .error .syntaxError := by
  unfold decodeNegotiationToken
  rw [h]
  rfl

/-- C3 witness: the amended statement at the concrete 0xA5 envelope's
bytes. -/
theorem c3_unknown_tag_witness :
    decodeNegotiationToken (tlvBytes exA5Envelope) = .error .syntaxError := by
  exact c3_unknown_tag_amended (tlvBytes exA5Envelope) exA5Envelope rfl

/-- C4: during attribute decoding, when a previously accepted tag exists
and the current element's tag is a valid, not-yet-seen schema tag that is
not strictly greater than the previous one, the walk of base.py lines
138-154 fails with `OutOfOrderNegotiationTokenElementError` carrying that
tag; in particular, a valid Response token with its two inner elements
swapped — tags 0xA1 then 0xA0 — decodes to
`OutOfOrderNegotiationTokenElementError(0xA0)` through the
Response-specific decode entry. -/
theorem c4_out_of_order_rejected :
    (∀ (attrs : List AttrClass) (st : WalkState) (p : Nat) (e : TLV)
        (rest : List TLV) (a : AttrClass),
      st.previousTag = some p →
      attrs.find? (fun x => x.tag == e.tag) = some a →
      e.tag ∉ st.parsed.map Prod.fst →
      e.tag ≤ p →
      walkElements attrs st (e :: rest)
        = .error (.outOfOrderNegotiationTokenElement e.tag)) ∧
    negTokenRespFromTlvTriplet exSwappedRespTlv
      = .error (.outOfOrderNegotiationTokenElement 0xA0) := by
  constructor
  · intro attrs st p e rest a h1 h2 h3 h4
    simp [walkElements, h1, h2, h3, orderViolation, h4]
  · rfl

/-- C4 witness: the walk statement applied at the state the swapped
Response body reaches after its first element — previous tag 0xA1, the
0xA0 neg-state element next. -/
theorem c4_out_of_order_witness :
    walkElements respAttrClasses ⟨some 0xA1, [(0xA1, .oid [1, 2, 3, 4])]⟩
      [exNegStateElem] = .error (.outOfOrderNegotiationTokenElement 0xA0) := by
  exact c4_out_of_order_rejected.1 respAttrClasses
    ⟨some 0xA1, [(0xA1, .oid [1, 2, 3, 4])]⟩ 0xA1 exNegStateElem []
    ⟨0xA0, false, some .negStateP, negStateValue⟩ rfl rfl (by decide) (by decide)

/-- C5 counterexample: the claim states that every element sequence in
which some schema tag occurs more than once fails with
`MultipleAttributeError`.  A Response body with elements tagged 0xA1,
0xA0, 0xA0 contains 0xA0 twice, yet the live decode fails with
`OutOfOrderNegotiationTokenElementError` at the second element, before
the duplicate occurrence is reached. -/
theorem c5_duplicate_tag_counterexample :
    countTag exDupRespElems 0xA0 = 2 ∧
    negTokenRespFromTlvTriplet exDupRespTlv
      = .error (.outOfOrderNegotiationTokenElement 0xA0) ∧
    SpnegoError.outOfOrderNegotiationTokenElement 0xA0
      ≠ SpnegoError.multipleAttribute 0xA0 :=
  ⟨rfl, rfl, by decide⟩

/-- C5 amended: when the live attribute walk reaches an element whose
valid schema tag has already been decoded in this call — no earlier
element having failed the tag, uniqueness or ordering checks — it fails
with `MultipleAttributeError` carrying the repeated tag; in particular,
a Response body with two 0xA0 neg-state elements fails with
`MultipleAttributeError(0xA0)`.  (The claim's Initiation instance is
unreachable: decoding any Initiation body raises SyntaxError at base.py
line 82.) -/
theorem c5_duplicate_tag_rejected :
    (∀ (attrs : List AttrClass) (st : WalkState) (e : TLV)
        (rest : List TLV) (a : AttrClass),
      attrs.find? (fun x => x.tag == e.tag) = some a →
      e.tag ∈ st.parsed.map Prod.fst →
      mixinWalkElements attrs st (e :: rest) = .error (.multipleAttribute e.tag)) ∧
    negTokenRespFromTlvTriplet exTwoNegStateTlv = .error (.multipleAttribute 0xA0) := by
  constructor
  · intro attrs st e rest a h1 h2
    simp [mixinWalkElements, h1, h2]
  · rfl

/-- C5 witness: the duplicate statement applied at the state a Response
body with two 0xA0 neg-state elements reaches after the first of them. -/
theorem c5_duplicate_tag_witness :
    mixinWalkElements respAttrClasses ⟨some 0xA0, [(0xA0, .negState 0)]⟩
      [exNegStateElem] = .error (.multipleAttribute 0xA0) := by
  exact c5_duplicate_tag_rejected.1 respAttrClasses
    ⟨some 0xA0, [(0xA0, .negState 0)]⟩ exNegStateElem []
    ⟨0xA0, false, some .negStateP, negStateValue⟩ rfl (by decide)

/-- C6: the claim states that an element sequence passing the walk but
lacking a field for a schema marked required fails with
`MissingRequiredAttributesError` carrying the observed and required tag
sets.  The check is written exactly so (base.py lines 156-158), but the
only schema marked required belongs to `NegTokenInit`, whose module
never imports, and the generic decode raises SyntaxError at base.py
line 82 on every call — on the spec's own flags-only Initiation body
included — so the program never raises
`MissingRequiredAttributesError`. -/
theorem c6_missing_required_unreachable :
    decodeNegotiationToken exInitFlagsOnlyBytes = .error .syntaxError ∧
    (SpnegoError.syntaxError).isMalformedGSSToken = false :=
  ⟨rfl, rfl⟩

/-- C7: the claim states that a well-formed envelope whose mechanism OID
differs from 1.3.6.1.5.5.2 fails with
`NegotiationTokenOidMismatchError` carrying the observed OID.  The
comparison is written exactly so (base.py lines 87-91), but it sits
after the method's always-failing import (line 82), so decoding the
envelope carrying OID 1.2.3.4 raises the untyped SyntaxError instead
and the program never raises `NegotiationTokenOidMismatchError` — whose
constructor, moreover, embeds the OID only in its message and never
stores it as an attribute (exceptions.py lines 66-71). -/
theorem c7_oid_mismatch_unreachable :
    spnegoTokenFromTlvTriplet exMismatchEnvelope = .error .syntaxError ∧
    (SpnegoError.syntaxError).isMalformedGSSToken = false :=
  ⟨rfl, rfl⟩

/-- C8 counterexample: the claim states that req-flags decode and encode
map a flag set to a most-significant-bit-first bit-string.  The MSB-first
byte for the integrity singleton is 2, yet the live decode
(`ReqFlags.parsed_value`, token_attributes.py lines 57-66) reads byte 2
as the single flag value 2 (replay detection), and it rejects the
MSB-first byte for the delegation singleton (128) with the untyped
`ValueError` — a single enumeration value 0..6, not a bit set.  (The
encode half, neg_token_init.py line 53, is unreachable: that module never
imports.) -/
theorem c8_flags_counterexample :
    reqFlagsSpecBits [6] = 2 ∧
    reqFlagsValue ⟨0xA1, tlvBytes (bitStringTlv [2])⟩ = .ok (.flag 2) ∧
    FieldValue.flag 2 ≠ FieldValue.flag 6 ∧
    reqFlagsValue ⟨0xA1, tlvBytes (bitStringTlv [reqFlagsSpecBits [0]])⟩
      = .error .valueError :=
  ⟨by decide, rfl, by decide, rfl⟩

/-- C8 amended: the req-flags field is the seven-valued
`NegTokenInitReqFlag` enumeration (token_attributes.py lines 11-18); the
live decode reads the BIT STRING data as a big-endian integer and yields
that single enumeration value, accepting exactly 0..6 and raising
`ValueError` on anything else — no bit set and no MSB-first layout.  The
encode half of the claim cannot be assessed as program behavior: the only
req-flags encode (neg_token_init.py line 53) lives in the module whose
SyntaxError prevents import. -/
theorem c8_flags_amended (e : TLV) (data : List Nat)
    (h : parseTlvList e.value = some [⟨0x03, data⟩]) :
    reqFlagsValue e
      = if beVal data ≤ 6 then .ok (.flag (beVal data)) else .error .valueError := by
  unfold reqFlagsValue attributeElems
  rw [h]
  simp [liftO, headTlv]

/-- C8 witness: the amended statement at the single data byte 6, the
integrity flag's enumeration value. -/
theorem c8_flags_amended_witness :
    reqFlagsValue ⟨0xA1, tlvBytes (bitStringTlv [6])⟩ = .ok (.flag 6) := by
  rw [c8_flags_amended ⟨0xA1, tlvBytes (bitStringTlv [6])⟩ [6] rfl]
  rfl

/-- C9: when decoding an attribute's value fails at the adapter or
primitive level, the live attribute-set decode — the spec-modelled mixin
walk — propagates the failure as `AttributeDecodeError` carrying the
offending tag, a member of the `MalformedGSSToken` family; in
particular, a Response whose neg-state element holds the out-of-range
integer 4 (the enumeration is the closed set 0..3, and the in-source
`NegState.parsed_value` rejects anything else, token_attributes.py lines
97-101) decodes to `AttributeDecodeError(0xA0)` wrapping the
`ValueError`, not to a silently accepted value. -/
theorem c9_attribute_decode_wrapped :
    (∀ (attrs : List AttrClass) (st : WalkState) (e : TLV)
        (rest : List TLV) (a : AttrClass) (err : SpnegoError),
      attrs.find? (fun x => x.tag == e.tag) = some a →
      e.tag ∉ st.parsed.map Prod.fst →
      ¬ orderViolation st.previousTag e.tag →
      a.decodeValue e = .error err →
      mixinWalkElements attrs st (e :: rest)
        = .error (.attributeDecodeError e.tag err)) ∧
    negTokenRespFromTlvTriplet exBadNegStateTlv
      = .error (.attributeDecodeError 0xA0 .valueError) ∧
    (SpnegoError.attributeDecodeError 0xA0 .valueError).isMalformedGSSToken = true := by
  refine ⟨?_, rfl, rfl⟩
  intro attrs st e rest a err h1 h2 h3 h4
  simp [mixinWalkElements, h1, h2, h3, h4]

/-- C9 witness: the wrapping statement applied to the concrete
out-of-range neg-state element from the initial walk state. -/
theorem c9_attribute_decode_witness :
    mixinWalkElements respAttrClasses ⟨none, []⟩ [exBadNegStateElem]
      = .error (.attributeDecodeError 0xA0 .valueError) := by
  exact c9_attribute_decode_wrapped.1 respAttrClasses ⟨none, []⟩ exBadNegStateElem []
    ⟨0xA0, false, some .negStateP, negStateValue⟩ .valueError rfl (by decide)
    (fun h => h) rfl

/-- Registration followed by lookup of the same tag yields the
just-registered class, whatever was there before: dict assignment
semantics. -/
theorem registerSpnegoClass_lookup (m : List (Nat × TokenClass)) (tag : Nat)
    (c : TokenClass) :
    registryLookup (registerSpnegoClass m tag c) tag = some c := by
  induction m with
  | nil => simp [registerSpnegoClass, registryLookup]
  | cons hd tl ih =>
    obtain ⟨k, v⟩ := hd
    by_cases h : k = tag
    · simp [registerSpnegoClass, h, registryLookup]
    · simpa [registerSpnegoClass, h, registryLookup] using ih

/-- C10 counterexample: the claim states that registering a variant under
an already-present tag fails fast and that no registry entry is ever
overwritten.  `register_spnego_class` is a bare dict assignment:
registering a second class under the occupied tag 0xA0 succeeds and
replaces the entry. -/
theorem c10_registry_counterexample :
    registerSpnegoClass (registerSpnegoClass [] 0xA0 .negTokenInitC) 0xA0 .negTokenRespC
      = [(0xA0, .negTokenRespC)] ∧
    registryLookup (registerSpnegoClass
        (registerSpnegoClass [] 0xA0 .negTokenInitC) 0xA0 .negTokenRespC) 0xA0
      ≠ some .negTokenInitC :=
  ⟨rfl, by decide⟩

/-- C10 amended: registration never fails — re-registering an occupied
tag silently overwrites the entry, the subsequent lookup returning the
newer class — and at runtime the registry is never populated at all: the
only `@register_spnego_class` decoration sits in the unimportable
neg_token_init module, so the mapping stays empty and every lookup
misses. -/
theorem c10_registry_amended (m : List (Nat × TokenClass)) (tag k : Nat)
    (c c2 : TokenClass) :
    registryLookup (registerSpnegoClass (registerSpnegoClass m tag c) tag c2) tag
      = some c2 ∧
    registryLookup spnegoRegistry k = none :=
  ⟨registerSpnegoClass_lookup _ tag c2, rfl⟩

end Spnego
